import Mathlib

/-!
Shallow embedding of the inventory / point-of-sale application
(`server/sqlite-storage.ts`, `server/init-db.ts`, `server/db.ts`,
`client/src/components/receipt-generator.tsx`) and proofs about its
SKU generator, catalog query engine, analytics aggregator, receipt
builder, wishlist operations and product deletion semantics.

Modelling conventions:
- SQLite tables become Lean lists of structures inside a `Store`;
  `INTEGER PRIMARY KEY AUTOINCREMENT` columns become per-table `next…Id`
  counters that never reuse ids.
- SQL `REAL` money columns are modelled as `ℚ` (exact arithmetic).
- Fallible statements (uniqueness violations, foreign-key violations with
  `PRAGMA foreign_keys = ON` from `server/db.ts`) return `Option`/a flag,
  and - as in `better-sqlite3` without an explicit transaction - every
  statement that already ran before a failure keeps its effect.
- JavaScript truthiness tests on optional strings/booleans/numbers
  (`if (filters.search)`, `if (filters.limit)`, …) are modelled explicitly:
  `none`, the empty string, `false` and `0` are falsy.
-/

namespace InventoryApp

/-- A row of the `categories` table (`shared/sqlite-schema.ts`). -/
structure Category where
  id : Nat
  name : String
  code : String
  deriving Repr, DecidableEq

/-- A row of the `products` table, restricted to the columns the storage
layer queries read (`shared/sqlite-schema.ts`). -/
structure Product where
  id : Nat
  name : String
  sku : String
  category : String
  price : ℚ
  stockQuantity : Nat
  description : Option String
  brand : Option String
  tags : Option String
  isActive : Bool
  isFeatured : Bool
  createdAt : Int
  deriving Repr, DecidableEq

/-- A row of the `product_images` table. -/
structure ProductImage where
  id : Nat
  productId : Nat
  imageUrl : String
  deriving Repr, DecidableEq

/-- A row of the `product_reviews` table. -/
structure ProductReview where
  id : Nat
  productId : Nat
  rating : Nat
  deriving Repr, DecidableEq

/-- A row of the `wishlist` table. -/
structure WishlistItem where
  id : Nat
  sessionId : String
  productId : Nat
  createdAt : Int
  deriving Repr, DecidableEq

/-- A row of the `receipts` table (money columns and identity). -/
structure Receipt where
  id : Nat
  receiptNumber : String
  subtotal : ℚ
  taxRate : ℚ
  taxAmount : ℚ
  discountRate : ℚ
  discountAmount : ℚ
  total : ℚ
  deriving Repr, DecidableEq

/-- A row of the `receipt_items` table. -/
structure ReceiptItem where
  id : Nat
  receiptId : Nat
  productId : Nat
  productName : String
  productSku : String
  quantity : Nat
  unitPrice : ℚ
  totalPrice : ℚ
  deriving Repr, DecidableEq

/-- The payload accepted by `createReceipt` for the header
(`insertReceiptSchema` = receipts minus id/createdAt). -/
structure InsertReceipt where
  receiptNumber : String
  subtotal : ℚ
  taxRate : ℚ
  taxAmount : ℚ
  discountRate : ℚ
  discountAmount : ℚ
  total : ℚ
  deriving Repr, DecidableEq

/-- The payload accepted by `createReceipt` for one line item
(`insertReceiptItemSchema` = receipt_items minus id; the client-supplied
`receiptId` is overwritten by the storage layer). -/
structure InsertReceiptItem where
  receiptId : Nat
  productId : Nat
  productName : String
  productSku : String
  quantity : Nat
  unitPrice : ℚ
  totalPrice : ℚ
  deriving Repr, DecidableEq

/-- The payload accepted by `createProduct` (`insertProductSchema` =
products minus id/createdAt/updatedAt), restricted to modelled columns. -/
structure InsertProduct where
  name : String
  sku : String
  category : String
  price : ℚ
  stockQuantity : Nat
  description : Option String
  brand : Option String
  tags : Option String
  isActive : Bool
  isFeatured : Bool
  deriving Repr, DecidableEq

/-- The whole SQLite database (`database.sqlite`), one list per table plus
the AUTOINCREMENT counters. -/
structure Store where
  categories : List Category
  products : List Product
  productImages : List ProductImage
  productReviews : List ProductReview
  wishlistRows : List WishlistItem
  receipts : List Receipt
  receiptItems : List ReceiptItem
  nextProductId : Nat
  nextWishlistId : Nat
  nextReceiptId : Nat
  nextReceiptItemId : Nat
  deriving Repr, DecidableEq

/-! ### String helpers (JavaScript semantics) -/

/-- JavaScript `String.prototype.padStart(target, c)`. -/
def padStart (s : String) (target : Nat) (c : Char) : String :=
  if target ≤ s.length then s
  else String.mk (List.replicate (target - s.length) c) ++ s

/-- Does the character list start with the given pattern? -/
def charsStartWith : List Char → List Char → Bool
  | _, [] => true
  | [], _ :: _ => false
  | a :: as, b :: bs => a == b && charsStartWith as bs

/-- Does the character list have the pattern as a contiguous run? -/
def charsHold : List Char → List Char → Bool
  | [], pat => pat.isEmpty
  | a :: as, pat => charsStartWith (a :: as) pat || charsHold as pat

/-- SQL `column LIKE '%pat%'` on a nullable text column: `NULL` never
matches; otherwise case-insensitive containment (SQLite default for
ASCII). -/
def likeSub (field : Option String) (pat : String) : Bool :=
  match field with
  | none => false
  | some s => charsHold s.toLower.data pat.toLower.data

/-! ### SKU generation (`sqlite-storage.ts`, `generateSku`) -/

/-- The count of products whose `category` column equals the given code
(the `count(*) … where category = ?` query inside `generateSku`). -/
def countByCategory (ps : List Product) (c : String) : Nat :=
  (ps.filter (fun p => p.category == c)).length

/-- `generateSku` from `sqlite-storage.ts`: count the products in the
category, add one, zero-pad to three digits, append the current year.
The current year is passed explicitly (`new Date().getFullYear()`). -/
def generateSku (s : Store) (category : String) (year : Nat) : String :=
  category ++ "-" ++ padStart (toString (countByCategory s.products category + 1)) 3 '0'
    ++ "-" ++ toString year

/-- The spec's reading of the sequence field: the decimal digits of `n`,
left-padded with `'0'` to width 3 (written independently of `padStart`,
via `List.leftpad`). -/
def zeroPad3 (n : Nat) : String :=
  String.mk (List.leftpad 3 '0' (toString n).data)

theorem string_mk_data (s : String) : String.mk s.data = s := rfl

theorem padStart_eq_leftpad (s : String) (target : Nat) (c : Char) :
    padStart s target c = String.mk (List.leftpad target c s.data) := by
  unfold padStart List.leftpad
  by_cases h : target ≤ s.length
  · rw [if_pos h]
    have hz : target - s.data.length = 0 := by
      have : s.length = s.data.length := rfl
      omega
    rw [hz]
    simp [string_mk_data]
  · rw [if_neg h]
    show String.mk (List.replicate (target - s.length) c) ++ String.mk s.data
        = String.mk (List.replicate (target - s.data.length) c ++ s.data)
    rfl

/-! ### Catalog query engine (`sqlite-storage.ts`, `getCatalogProducts`) -/

/-- The `sortBy` filter values accepted by the interface (`'rating'` is
accepted by the type but has no case in the switch statement). -/
inductive SortBy
  | name
  | price
  | created
  | rating
  deriving Repr, DecidableEq

/-- The `sortOrder` filter values. -/
inductive SortOrder
  | asc
  | desc
  deriving Repr, DecidableEq

/-- The filter object of `getCatalogProducts`. -/
structure CatalogFilters where
  search : Option String := none
  category : Option String := none
  minPrice : Option ℚ := none
  maxPrice : Option ℚ := none
  inStock : Option Bool := none
  featured : Option Bool := none
  sortBy : Option SortBy := none
  sortOrder : Option SortOrder := none
  limit : Option Nat := none
  offset : Option Nat := none
  deriving Repr, DecidableEq

/-- The `filters.search` condition: skipped when the value is absent or
falsy (empty string), otherwise `LIKE '%s%'` over name, sku, description,
brand and tags, OR-ed. -/
def catalogSearchCond (search : Option String) (p : Product) : Bool :=
  match search with
  | none => true
  | some s =>
    if s = "" then true
    else likeSub (some p.name) s || likeSub (some p.sku) s || likeSub p.description s
      || likeSub p.brand s || likeSub p.tags s

/-- The `filters.category` condition (skipped when absent or empty). -/
def categoryCond (category : Option String) (p : Product) : Bool :=
  match category with
  | none => true
  | some c => if c = "" then true else p.category == c

/-- The `filters.minPrice` condition: `gte(products.price, minPrice)`,
applied whenever the field is not `undefined` (also at 0). -/
def minPriceCond (minPrice : Option ℚ) (p : Product) : Bool :=
  match minPrice with
  | none => true
  | some a => decide (a ≤ p.price)

/-- The `filters.maxPrice` condition: `lte(products.price, maxPrice)`. -/
def maxPriceCond (maxPrice : Option ℚ) (p : Product) : Bool :=
  match maxPrice with
  | none => true
  | some b => decide (p.price ≤ b)

/-- The `filters.inStock` condition: `stock_quantity > 0`, applied only
when the flag is truthy. -/
def inStockCond (inStock : Option Bool) (p : Product) : Bool :=
  if inStock = some true then decide (0 < p.stockQuantity) else true

/-- The `filters.featured` condition: `is_featured = true`, applied only
when the flag is truthy. -/
def featuredCond (featured : Option Bool) (p : Product) : Bool :=
  if featured = some true then p.isFeatured else true

/-- The conjunction of every catalog condition except the two price
bounds: `isActive = true` always, then search/category/inStock/featured
when provided. -/
def catalogBaseCond (f : CatalogFilters) (p : Product) : Bool :=
  p.isActive && catalogSearchCond f.search p && categoryCond f.category p
    && inStockCond f.inStock p && featuredCond f.featured p

/-- The full WHERE clause of `getCatalogProducts`:
`and(isActive, search?, category?, minPrice?, maxPrice?, inStock?, featured?)`. -/
def catalogCond (f : CatalogFilters) (p : Product) : Bool :=
  catalogBaseCond f p && minPriceCond f.minPrice p && maxPriceCond f.maxPrice p

/-- The column selected by the sort switch: `price` and `created` have
cases; `name`, `rating` and an absent value fall through to the default
(`name`). -/
inductive SortKey
  | byName
  | byPrice
  | byCreated
  deriving Repr, DecidableEq

/-- The switch statement on `filters.sortBy`. -/
def sortKeyOf : Option SortBy → SortKey
  | some SortBy.price => SortKey.byPrice
  | some SortBy.created => SortKey.byCreated
  | _ => SortKey.byName

/-- The comparison used by `orderBy`: ascending on the selected column, or
descending when `filters.sortOrder === 'desc'`. -/
def keyRel (k : SortKey) (descend : Bool) : Product → Product → Prop :=
  fun p q =>
    match k, descend with
    | SortKey.byName, false => p.name ≤ q.name
    | SortKey.byName, true => q.name ≤ p.name
    | SortKey.byPrice, false => p.price ≤ q.price
    | SortKey.byPrice, true => q.price ≤ p.price
    | SortKey.byCreated, false => p.createdAt ≤ q.createdAt
    | SortKey.byCreated, true => q.createdAt ≤ p.createdAt

instance keyRelDecidable (k : SortKey) (descend : Bool) : DecidableRel (keyRel k descend) := by
  intro p q
  cases k <;> cases descend <;> unfold keyRel <;> exact inferInstance

instance keyRelTotal (k : SortKey) (descend : Bool) : IsTotal Product (keyRel k descend) := by
  constructor
  intro p q
  cases k <;> cases descend <;> unfold keyRel <;> exact le_total _ _

instance keyRelTrans (k : SortKey) (descend : Bool) : IsTrans Product (keyRel k descend) := by
  constructor
  intro p q r h h'
  cases k <;> cases descend <;> simp only [keyRel] at h h' ⊢ <;>
    first
      | exact le_trans h h'
      | exact le_trans h' h

/-- The `OFFSET` clause, attached only when `filters.offset` is truthy (a
present, non-zero number). -/
def applyOffset (offset : Option Nat) (l : List Product) : List Product :=
  match offset with
  | none => l
  | some k => if k = 0 then l else l.drop k

/-- The `LIMIT` clause, attached only when `filters.limit` is truthy. -/
def applyLimit (limit : Option Nat) (l : List Product) : List Product :=
  match limit with
  | none => l
  | some n => if n = 0 then l else l.take n

/-- `LIMIT n OFFSET k` applied the way the source applies it. -/
def applyLimOff (limit offset : Option Nat) (l : List Product) : List Product :=
  applyLimit limit (applyOffset offset l)

/-- `getCatalogProducts` from `sqlite-storage.ts`: filter by the WHERE
clause, sort by the selected column and direction, then apply
limit/offset. -/
def getCatalogProducts (s : Store) (f : CatalogFilters) : List Product :=
  applyLimOff f.limit f.offset
    ((s.products.filter (catalogCond f)).insertionSort
      (keyRel (sortKeyOf f.sortBy) (f.sortOrder = some SortOrder.desc)))

/-! ### Admin product listing (`sqlite-storage.ts`, `getProducts`) -/

/-- The WHERE clause of the admin listing: optional search over name, sku
and description only, optional category equality; no `isActive` test. -/
def adminCond (search category : Option String) (p : Product) : Bool :=
  (match search with
    | none => true
    | some s =>
      if s = "" then true
      else likeSub (some p.name) s || likeSub (some p.sku) s || likeSub p.description s)
  && (match category with
    | none => true
    | some c => if c = "" then true else p.category == c)

/-- `getProducts` from `sqlite-storage.ts`: filter, order by `created_at`
descending, cap at 100 rows. -/
def getProducts (s : Store) (search category : Option String) : List Product :=
  (((s.products.filter (adminCond search category)).insertionSort
    (keyRel SortKey.byCreated true)).take 100)

/-! ### Product mutation (`createProduct`, `updateProduct`, `deleteProduct`) -/

/-- A `Partial<InsertProduct>` patch as accepted by `updateProduct`
(restricted to modelled columns); `none` means the field is absent. -/
structure ProductPatch where
  name : Option String := none
  sku : Option String := none
  category : Option String := none
  price : Option ℚ := none
  stockQuantity : Option Nat := none
  description : Option (Option String) := none
  brand : Option (Option String) := none
  tags : Option (Option String) := none
  isActive : Option Bool := none
  isFeatured : Option Bool := none
  deriving Repr, DecidableEq

/-- `UPDATE … SET` semantics: each present patch field overwrites the
column, absent fields are untouched. -/
def applyPatch (patch : ProductPatch) (p : Product) : Product :=
  { p with
    name := patch.name.getD p.name
    sku := patch.sku.getD p.sku
    category := patch.category.getD p.category
    price := patch.price.getD p.price
    stockQuantity := patch.stockQuantity.getD p.stockQuantity
    description := patch.description.getD p.description
    brand := patch.brand.getD p.brand
    tags := patch.tags.getD p.tags
    isActive := patch.isActive.getD p.isActive
    isFeatured := patch.isFeatured.getD p.isFeatured }

/-- `updateProduct` from `sqlite-storage.ts`: update the row(s) whose id
matches and return the updated row (`undefined` when no row matched). -/
def updateProduct (s : Store) (pid : Nat) (patch : ProductPatch) : Store × Option Product :=
  let updated := s.products.map (fun p => if p.id == pid then applyPatch patch p else p)
  ({ s with products := updated }, updated.find? (fun p => p.id == pid))

/-- `createProduct` from `sqlite-storage.ts`: a plain INSERT; the UNIQUE
constraint on `sku` makes it throw (here: `none`) when the sku exists. -/
def createProduct (s : Store) (np : InsertProduct) (now : Int) : Store × Option Product :=
  if s.products.any (fun p => p.sku == np.sku) then (s, none)
  else
    let p : Product :=
      { id := s.nextProductId, name := np.name, sku := np.sku, category := np.category,
        price := np.price, stockQuantity := np.stockQuantity, description := np.description,
        brand := np.brand, tags := np.tags, isActive := np.isActive,
        isFeatured := np.isFeatured, createdAt := now }
    ({ s with products := s.products ++ [p], nextProductId := s.nextProductId + 1 }, some p)

/-- `deleteProduct` from `sqlite-storage.ts` under `PRAGMA foreign_keys =
ON` (`server/db.ts`) and the DDL of `server/init-db.ts`: `product_images`,
`product_reviews` and `wishlist` reference the product with `ON DELETE
CASCADE`, while `receipt_items.product_id` has no ON DELETE action, so
deleting a product that a receipt item references fails the whole
statement (modelled as `none`); `some b` models `result.changes > 0`. -/
def deleteProduct (s : Store) (pid : Nat) : Store × Option Bool :=
  if s.products.any (fun p => p.id == pid) then
    if s.receiptItems.any (fun it => it.productId == pid) then (s, none)
    else
      ({ s with
          products := s.products.filter (fun p => !(p.id == pid)),
          productImages := s.productImages.filter (fun im => !(im.productId == pid)),
          productReviews := s.productReviews.filter (fun rv => !(rv.productId == pid)),
          wishlistRows := s.wishlistRows.filter (fun w => !(w.productId == pid)) },
        some true)
  else (s, some false)

/-! ### Wishlist (`addToWishlist`, `removeFromWishlist`) -/

/-- The existence probe of `addToWishlist`:
`where(sessionId = ? and productId = ?)` followed by `.get()`. -/
def findWishlistRow (s : Store) (sid : String) (pid : Nat) : Option WishlistItem :=
  s.wishlistRows.find? (fun w => w.sessionId == sid && w.productId == pid)

/-- `addToWishlist` from `sqlite-storage.ts`: return the existing row if
present, otherwise INSERT (which fails - `none` - when the product id
violates the foreign key). -/
def addToWishlist (s : Store) (sid : String) (pid : Nat) (now : Int) :
    Store × Option WishlistItem :=
  match findWishlistRow s sid pid with
  | some w => (s, some w)
  | none =>
    if s.products.any (fun p => p.id == pid) then
      let w : WishlistItem :=
        { id := s.nextWishlistId, sessionId := sid, productId := pid, createdAt := now }
      let s1 : Store :=
        { s with wishlistRows := s.wishlistRows ++ [w], nextWishlistId := s.nextWishlistId + 1 }
      (s1, some w)
    else (s, none)

/-- `removeFromWishlist` from `sqlite-storage.ts`: DELETE the matching
rows and report `result.changes > 0` (strictly fewer rows remain). -/
def removeFromWishlist (s : Store) (sid : String) (pid : Nat) : Store × Bool :=
  ({ s with wishlistRows :=
      s.wishlistRows.filter (fun w => !(w.sessionId == sid && w.productId == pid)) },
    decide ((s.wishlistRows.filter
      (fun w => !(w.sessionId == sid && w.productId == pid))).length < s.wishlistRows.length))

/-! ### Receipts (`createReceipt`) and the client's `calculateTotals` -/

/-- Insert one receipt item row (`db.insert(receiptItems).values({...item,
receiptId})`), assuming its foreign keys hold. -/
def insertReceiptItemRow (s : Store) (rid : Nat) (it : InsertReceiptItem) : Store :=
  { s with
    receiptItems := s.receiptItems ++
      [{ id := s.nextReceiptItemId, receiptId := rid, productId := it.productId,
         productName := it.productName, productSku := it.productSku,
         quantity := it.quantity, unitPrice := it.unitPrice,
         totalPrice := it.totalPrice }],
    nextReceiptItemId := s.nextReceiptItemId + 1 }

/-- The item loop of `createReceipt`: inserts run one by one with no
transaction, so when an insert fails (foreign-key violation on
`product_id`) the earlier inserts keep their effect and the loop stops. -/
def insertReceiptItemsLoop (s : Store) (rid : Nat) :
    List InsertReceiptItem → Store × Bool
  | [] => (s, true)
  | it :: rest =>
    if s.products.any (fun p => p.id == it.productId) then
      insertReceiptItemsLoop (insertReceiptItemRow s rid it) rid rest
    else (s, false)

/-- `createReceipt` from `sqlite-storage.ts`: INSERT the header exactly as
supplied (no recomputation of totals), then INSERT each item with the new
header id; no transaction wraps the statements. A `receipt_number`
uniqueness violation makes the header insert itself fail. -/
def createReceipt (s : Store) (r : InsertReceipt) (items : List InsertReceiptItem) :
    Store × Option Receipt :=
  if s.receipts.any (fun x => x.receiptNumber == r.receiptNumber) then (s, none)
  else
    let newR : Receipt :=
      { id := s.nextReceiptId, receiptNumber := r.receiptNumber, subtotal := r.subtotal,
        taxRate := r.taxRate, taxAmount := r.taxAmount, discountRate := r.discountRate,
        discountAmount := r.discountAmount, total := r.total }
    let s1 := { s with receipts := s.receipts ++ [newR], nextReceiptId := s.nextReceiptId + 1 }
    let res := insertReceiptItemsLoop s1 newR.id items
    (res.1, if res.2 then some newR else none)

/-- One entry of the client's `selectedProducts` state
(`receipt-generator.tsx`): `total` is maintained as `price * quantity`. -/
structure SelectedProduct where
  price : ℚ
  quantity : Nat
  total : ℚ
  deriving Repr, DecidableEq

/-- The result shape of the client's `calculateTotals`. -/
structure Totals where
  subtotal : ℚ
  discountAmount : ℚ
  taxAmount : ℚ
  total : ℚ
  deriving Repr, DecidableEq

/-- `calculateTotals` from `receipt-generator.tsx`. -/
def calculateTotals (sel : List SelectedProduct) (taxRate discountRate : ℚ) : Totals :=
  let subtotal := sel.foldl (fun sum p => sum + p.total) 0
  let discountAmount := subtotal * discountRate
  let taxableAmount := subtotal - discountAmount
  let taxAmount := taxableAmount * taxRate
  { subtotal := subtotal, discountAmount := discountAmount, taxAmount := taxAmount,
    total := taxableAmount + taxAmount }

/-! ### Analytics (`getProductStats`) -/

/-- The result shape of `getProductStats`. -/
structure ProductStats where
  totalProducts : Nat
  totalValue : ℚ
  lowStockCount : Nat
  categoriesCount : Nat
  deriving Repr, DecidableEq

/-- `getProductStats` from `sqlite-storage.ts`: four scalar aggregates;
`sum(price * stock_quantity)` is NULL on an empty table and the source
coalesces it (`|| 0`) to 0, which `List.sum [] = 0` matches. -/
def getProductStats (s : Store) : ProductStats :=
  { totalProducts := s.products.length,
    totalValue := (s.products.map (fun p => p.price * (p.stockQuantity : ℚ))).sum,
    lowStockCount := (s.products.filter (fun p => decide (p.stockQuantity ≤ 10))).length,
    categoriesCount := s.categories.length }

/-! ### Concrete sample data used by witnesses and counterexamples -/

/-- A database with all tables empty. -/
def emptyStore : Store :=
  { categories := [], products := [], productImages := [], productReviews := [],
    wishlistRows := [], receipts := [], receiptItems := [],
    nextProductId := 1, nextWishlistId := 1, nextReceiptId := 1, nextReceiptItemId := 1 }

/-- A concrete product in category `"A"`. -/
def prodA : Product :=
  { id := 1, name := "Widget", sku := "A-001-2025", category := "A", price := 10,
    stockQuantity := 5, description := none, brand := none, tags := none,
    isActive := true, isFeatured := false, createdAt := 100 }

/-- A concrete product in category `"B"`. -/
def prodB : Product :=
  { id := 2, name := "Gadget", sku := "B-001-2025", category := "B", price := 20,
    stockQuantity := 0, description := some "nice", brand := none, tags := none,
    isActive := true, isFeatured := true, createdAt := 200 }

/-- A store holding `prodA` and `prodB`. -/
def sampleStore : Store := { emptyStore with products := [prodA, prodB], nextProductId := 3 }

/-! ### General helper lemmas -/

theorem applyLimit_sublist (limit : Option Nat) (l : List Product) :
    (applyLimit limit l).Sublist l := by
  unfold applyLimit
  cases limit with
  | none => exact List.Sublist.refl l
  | some n =>
    show (if n = 0 then l else l.take n).Sublist l
    by_cases hn : n = 0
    · rw [if_pos hn]
    · rw [if_neg hn]; exact List.take_sublist n l

theorem applyOffset_sublist (offset : Option Nat) (l : List Product) :
    (applyOffset offset l).Sublist l := by
  unfold applyOffset
  cases offset with
  | none => exact List.Sublist.refl l
  | some k =>
    show (if k = 0 then l else l.drop k).Sublist l
    by_cases hk : k = 0
    · rw [if_pos hk]
    · rw [if_neg hk]; exact List.drop_sublist k l

theorem applyLimOff_sublist (limit offset : Option Nat) (l : List Product) :
    (applyLimOff limit offset l).Sublist l :=
  (applyLimit_sublist limit (applyOffset offset l)).trans (applyOffset_sublist offset l)

/-- Every product a catalog query returns is a row of the products table
that passes the full WHERE clause. -/
theorem mem_getCatalogProducts {s : Store} {f : CatalogFilters} {p : Product}
    (h : p ∈ getCatalogProducts s f) : p ∈ s.products ∧ catalogCond f p = true := by
  unfold getCatalogProducts at h
  have h1 := (applyLimOff_sublist f.limit f.offset _).subset h
  rw [List.mem_insertionSort] at h1
  exact List.mem_filter.mp h1

/-! ### C1: SKU generation format -/

/-- C1: for every category code `C` (whether or not it names an existing
category), `generateSku C` returns `C-NNN-YYYY`, where `YYYY` is the
supplied current year and `NNN` is the count of products whose category
equals `C`, plus one, zero-padded to width 3. -/
theorem C1_generateSku_format (s : Store) (c : String) (y : Nat) :
    generateSku s c y
      = c ++ "-" ++ zeroPad3 (countByCategory s.products c + 1) ++ "-" ++ toString y
    ∧ ∀ cats : List Category, generateSku { s with categories := cats } c y = generateSku s c y := by
  constructor
  · unfold generateSku zeroPad3
    rw [padStart_eq_leftpad]
  · intro cats
    rfl

/-! ### C6: product statistics -/

theorem length_filter_stock_split (l : List Product) :
    (l.filter (fun p => decide (p.stockQuantity ≤ 10))).length
      = (l.filter (fun p => decide (p.stockQuantity = 0))).length
        + (l.filter (fun p => decide (1 ≤ p.stockQuantity ∧ p.stockQuantity ≤ 10))).length := by
  induction l with
  | nil => rfl
  | cons p t ih =>
    simp only [List.filter_cons]
    by_cases h0 : p.stockQuantity = 0
    · have h10 : p.stockQuantity ≤ 10 := by omega
      have hband : ¬(1 ≤ p.stockQuantity ∧ p.stockQuantity ≤ 10) := by omega
      simp [h0, h10, hband, ih]
      omega
    · by_cases h10 : p.stockQuantity ≤ 10
      · have hband : 1 ≤ p.stockQuantity ∧ p.stockQuantity ≤ 10 := by omega
        simp [h0, h10, hband, ih]
        omega
      · have hband : ¬(1 ≤ p.stockQuantity ∧ p.stockQuantity ≤ 10) := by omega
        simp [h0, h10, hband, ih]

/-- C6: `getProductStats` returns the count of all products (no
`isActive` filter), the total inventory value `Σ price × stockQuantity`
(accumulated left to right from 0, as SQL SUM), the count of products
with `stockQuantity ≤ 10` - which splits into the zero-stock products
plus the 1..10 band - and the count of categories; on an empty products
table the first three are 0 and the fourth is the number of categories. -/
theorem C6_getProductStats (s : Store) :
    (getProductStats s).totalProducts = s.products.length
    ∧ (getProductStats s).totalValue
        = s.products.foldl (fun acc p => acc + p.price * (p.stockQuantity : ℚ)) 0
    ∧ (getProductStats s).lowStockCount
        = (s.products.filter (fun p => decide (p.stockQuantity = 0))).length
          + (s.products.filter (fun p =>
              decide (1 ≤ p.stockQuantity ∧ p.stockQuantity ≤ 10))).length
    ∧ (getProductStats s).categoriesCount = s.categories.length
    ∧ (s.products = [] →
        getProductStats s
          = { totalProducts := 0, totalValue := 0, lowStockCount := 0,
              categoriesCount := s.categories.length }) := by
  refine ⟨rfl, ?_, ?_, rfl, ?_⟩
  · show (s.products.map (fun p => p.price * (p.stockQuantity : ℚ))).sum = _
    rw [List.sum_eq_foldl, List.foldl_map]
  · exact length_filter_stock_split s.products
  · intro h
    unfold getProductStats
    rw [h]
    rfl

/-- Witness for C6 at a concrete two-product store, discharging the
empty-table hypothesis at the empty store. -/
theorem C6_getProductStats_witness :
    (getProductStats sampleStore).totalProducts = 2
    ∧ (getProductStats sampleStore).lowStockCount
        = (sampleStore.products.filter (fun p => decide (p.stockQuantity = 0))).length
          + (sampleStore.products.filter (fun p =>
              decide (1 ≤ p.stockQuantity ∧ p.stockQuantity ≤ 10))).length
    ∧ getProductStats emptyStore
        = { totalProducts := 0, totalValue := 0, lowStockCount := 0, categoriesCount := 0 } := by
  refine ⟨?_, (C6_getProductStats sampleStore).2.2.1, ?_⟩
  · rw [(C6_getProductStats sampleStore).1]
    rfl
  · have h := (C6_getProductStats emptyStore).2.2.2.2 rfl
    rw [h]
    rfl

/-! ### C7: inclusive price range filtering -/

/-- C7: with both price bounds present and no limit/offset clause, the
catalog query returns exactly the products of the table that pass the
other conditions (active, search, category, inStock, featured) and whose
price lies in the closed interval `[a, b]` - both bounds inclusive. -/
theorem C7_price_range (s : Store) (f : CatalogFilters) (a b : ℚ) (p : Product)
    (hmin : f.minPrice = some a) (hmax : f.maxPrice = some b)
    (hlim : f.limit = none) (hoff : f.offset = none) :
    p ∈ getCatalogProducts s f ↔
      p ∈ s.products ∧ catalogBaseCond f p = true ∧ a ≤ p.price ∧ p.price ≤ b := by
  unfold getCatalogProducts applyLimOff applyLimit applyOffset
  rw [hlim, hoff]
  show p ∈ (s.products.filter (catalogCond f)).insertionSort _ ↔ _
  rw [List.mem_insertionSort, List.mem_filter]
  unfold catalogCond minPriceCond maxPriceCond
  rw [hmin, hmax]
  simp [and_assoc]

/-- Witness for C7: in the sample store with bounds `[10, 20]`, the
product priced exactly 10 is returned (the lower bound is inclusive). -/
theorem C7_price_range_witness :
    prodA ∈ getCatalogProducts sampleStore { minPrice := some 10, maxPrice := some 20 } :=
  (C7_price_range sampleStore { minPrice := some 10, maxPrice := some 20 } 10 20 prodA
    rfl rfl rfl rfl).mpr ⟨by decide, by decide, by decide, by decide⟩

/-! ### C4: only active products in the catalog; admin listing ungated -/

/-- The row-level effect of `updateProduct pid { isActive := b }`: flip
the flag on the row(s) with the given id, leave every other row alone. -/
def setActiveRow (pid : Nat) (b : Bool) (p : Product) : Product :=
  if p.id == pid then { p with isActive := b } else p

/-- C4: every product any catalog query returns has `isActive = true`;
after `updateProduct` sets a product's `isActive` to false, no catalog
query returns a product with that id; and the admin listing after the
toggle is the admin listing before it with just that flag rewritten
(same rows, same order - the listing is unaffected by `isActive`). -/
theorem C4_catalog_only_active :
    (∀ (s : Store) (f : CatalogFilters) (p : Product),
      p ∈ getCatalogProducts s f → p.isActive = true)
    ∧ (∀ (s : Store) (pid : Nat) (f : CatalogFilters) (p : Product),
        p ∈ getCatalogProducts ((updateProduct s pid { isActive := some false }).1) f
        → ¬ p.id = pid)
    ∧ (∀ (s : Store) (pid : Nat) (b : Bool) (sc cc : Option String),
        getProducts ((updateProduct s pid { isActive := some b }).1) sc cc
          = (getProducts s sc cc).map (setActiveRow pid b)) := by
  have hactive : ∀ (s : Store) (f : CatalogFilters) (p : Product),
      p ∈ getCatalogProducts s f → p.isActive = true := by
    intro s f p h
    have hc := (mem_getCatalogProducts h).2
    unfold catalogCond catalogBaseCond at hc
    simp only [Bool.and_eq_true] at hc
    exact hc.1.1.1.1.1.1
  refine ⟨hactive, ?_, ?_⟩
  · intro s pid f p h heq
    have hmem := (mem_getCatalogProducts h).1
    have hact := hactive _ f p h
    show False
    have : (updateProduct s pid { isActive := some false }).1.products
        = s.products.map (setActiveRow pid false) := rfl
    rw [this, List.mem_map] at hmem
    obtain ⟨q, _, hq⟩ := hmem
    unfold setActiveRow at hq
    by_cases hid : q.id == pid
    · rw [if_pos hid] at hq
      rw [← hq] at hact
      exact Bool.false_ne_true hact
    · rw [if_neg hid] at hq
      rw [← hq] at heq
      exact hid (by exact beq_iff_eq.mpr heq)
  · intro s pid b sc cc
    show (((s.products.map (setActiveRow pid b)).filter (adminCond sc cc)).insertionSort
        (keyRel SortKey.byCreated true)).take 100 = _
    have hcond : (adminCond sc cc) ∘ (setActiveRow pid b) = adminCond sc cc := by
      funext p
      show adminCond sc cc (setActiveRow pid b p) = adminCond sc cc p
      unfold setActiveRow
      by_cases h : p.id == pid
      · rw [if_pos h]
        rfl
      · rw [if_neg h]
    have hrel : ∀ a ∈ s.products.filter (adminCond sc cc),
        ∀ c ∈ s.products.filter (adminCond sc cc),
        keyRel SortKey.byCreated true a c
          ↔ keyRel SortKey.byCreated true (setActiveRow pid b a) (setActiveRow pid b c) := by
      intro a _ c _
      unfold setActiveRow keyRel
      by_cases ha : a.id == pid <;> by_cases hc : c.id == pid <;>
        simp [ha, hc]
    rw [List.filter_map, hcond,
      ← List.map_insertionSort (keyRel SortKey.byCreated true)
        (keyRel SortKey.byCreated true) (setActiveRow pid b) _ hrel]
    show List.take 100 (List.map (setActiveRow pid b)
        ((s.products.filter (adminCond sc cc)).insertionSort (keyRel SortKey.byCreated true)))
      = List.map (setActiveRow pid b)
        (((s.products.filter (adminCond sc cc)).insertionSort
          (keyRel SortKey.byCreated true)).take 100)
    rw [List.map_take]

/-- Witness for C4 at the sample store: the first conjunct applied to a
concrete catalog member, the second to the member surviving a concrete
toggle. -/
theorem C4_catalog_only_active_witness :
    prodA.isActive = true ∧ ¬ prodB.id = 1 :=
  ⟨C4_catalog_only_active.1 sampleStore { sortBy := some SortBy.created } prodA (by decide),
   C4_catalog_only_active.2.1 sampleStore 1 { sortBy := some SortBy.created } prodB (by decide)⟩

/-! ### C9: admin listing cap, order, and inclusion of inactive rows -/

/-- C9: the admin listing returns at most 100 rows, in non-increasing
creation-time order; any table row passing the search/category conditions
is listed whenever at most 100 rows pass them (no `isActive` test); and
the WHERE clause is insensitive to the `isActive` flag. -/
theorem C9_admin_cap_sort (s : Store) (search category : Option String) :
    (getProducts s search category).length ≤ 100
    ∧ (getProducts s search category).Pairwise (fun p q => q.createdAt ≤ p.createdAt)
    ∧ (∀ p, p ∈ s.products → adminCond search category p = true
        → (s.products.filter (adminCond search category)).length ≤ 100
        → p ∈ getProducts s search category)
    ∧ (∀ (p : Product) (b : Bool),
        adminCond search category { p with isActive := b } = adminCond search category p) := by
  refine ⟨List.length_take_le 100 _, ?_, ?_, ?_⟩
  · have hs := List.sorted_insertionSort (keyRel SortKey.byCreated true)
      (s.products.filter (adminCond search category))
    exact List.Pairwise.sublist (List.take_sublist 100 _) hs
  · intro p hp hc hlen
    unfold getProducts
    rw [List.take_of_length_le]
    · rw [List.mem_insertionSort, List.mem_filter]
      exact ⟨hp, hc⟩
    · rw [List.length_insertionSort]
      exact hlen
  · intro p b
    rfl

/-- Witness for C9: the inclusion conjunct applied at the sample store
with no filters. -/
theorem C9_admin_cap_sort_witness :
    prodA ∈ getProducts sampleStore none none :=
  (C9_admin_cap_sort sampleStore none none).2.2.1 prodA (by decide) (by decide) (by decide)

/-! ### C8: wishlist idempotence and deletion reporting -/

theorem filter_not_length_lt_iff {α : Type} (l : List α) (pred : α → Bool) :
    (l.filter (fun w => !(pred w))).length < l.length ↔ ∃ w ∈ l, pred w = true := by
  induction l with
  | nil => simp
  | cons a t ih =>
    simp only [List.filter_cons]
    by_cases h : pred a = true
    · simp only [h, Bool.not_true, if_neg Bool.false_ne_true, List.length_cons]
      constructor
      · intro _
        exact ⟨a, List.mem_cons_self a t, h⟩
      · intro _
        have hle := List.length_filter_le (fun w => !(pred w)) t
        omega
    · have hna : (!(pred a)) = true := by simp [h]
      rw [if_pos hna]
      simp only [List.length_cons, Nat.add_lt_add_iff_right, ih, List.mem_cons]
      constructor
      · intro ⟨w, hw, hpw⟩
        exact ⟨w, Or.inr hw, hpw⟩
      · intro ⟨w, hw, hpw⟩
        cases hw with
        | inl he => exact absurd (he ▸ hpw) h
        | inr ht => exact ⟨w, ht, hpw⟩

/-- C8: `addToWishlist` returns the existing `(sessionId, productId)` row
unchanged when one exists; a successful call followed by a second call
returns the same row both times with no second insertion (the store is
untouched); `removeFromWishlist` on a pair with no row returns `false`
and leaves the store unchanged; and in general it reports `true` exactly
when some matching row existed (and was deleted). -/
theorem C8_wishlist_ops (s : Store) (sid : String) (pid : Nat) (now now' : Int) :
    (∀ w, findWishlistRow s sid pid = some w →
      addToWishlist s sid pid now = (s, some w))
    ∧ (∀ s1 w, addToWishlist s sid pid now = (s1, some w)
        → addToWishlist s1 sid pid now' = (s1, some w))
    ∧ ((∀ w ∈ s.wishlistRows, ¬(w.sessionId = sid ∧ w.productId = pid))
        → removeFromWishlist s sid pid = (s, false))
    ∧ ((removeFromWishlist s sid pid).2 = true
        ↔ ∃ w ∈ s.wishlistRows, w.sessionId = sid ∧ w.productId = pid) := by
  refine ⟨?_, ?_, ?_, ?_⟩
  · intro w hw
    unfold addToWishlist
    rw [hw]
  · intro s1 w h
    unfold addToWishlist at h ⊢
    cases hf : findWishlistRow s sid pid with
    | some w0 =>
      rw [hf] at h
      simp only [Prod.mk.injEq, Option.some.injEq] at h
      obtain ⟨hs, hw⟩ := h
      subst hs
      subst hw
      rw [hf]
    | none =>
      rw [hf] at h
      by_cases hp : s.products.any (fun p => p.id == pid) = true
      · rw [if_pos hp] at h
        simp only [Prod.mk.injEq, Option.some.injEq] at h
        obtain ⟨hs, hw⟩ := h
        have hfind : findWishlistRow s1 sid pid
            = some { id := s.nextWishlistId, sessionId := sid, productId := pid,
                     createdAt := now } := by
          rw [← hs]
          unfold findWishlistRow at hf ⊢
          show (s.wishlistRows ++ [_]).find? _ = _
          rw [List.find?_append, hf]
          simp
        rw [hfind, hw]
      · rw [if_neg hp] at h
        simp only [Prod.mk.injEq] at h
        exact absurd h.2 (by simp)
  · intro hno
    unfold removeFromWishlist
    have hself : s.wishlistRows.filter
        (fun w => !(w.sessionId == sid && w.productId == pid)) = s.wishlistRows := by
      rw [List.filter_eq_self]
      intro w hw
      have h := hno w hw
      cases hx : (w.sessionId == sid && w.productId == pid)
      · rfl
      · exfalso
        simp only [Bool.and_eq_true, beq_iff_eq] at hx
        exact h ⟨hx.1, hx.2⟩
    rw [hself]
    have hlt : decide (s.wishlistRows.length < s.wishlistRows.length) = false := by
      simp
    rw [hlt]
  · show decide ((s.wishlistRows.filter
        (fun w => !(w.sessionId == sid && w.productId == pid))).length
          < s.wishlistRows.length) = true ↔ _
    rw [decide_eq_true_iff]
    rw [filter_not_length_lt_iff s.wishlistRows
      (fun w => w.sessionId == sid && w.productId == pid)]
    simp only [Bool.and_eq_true, beq_iff_eq]

/-- Witness for C8: two concrete calls on the sample store return the
freshly inserted row both times, and removal of an absent pair is a
reported no-op. -/
theorem C8_wishlist_ops_witness :
    addToWishlist ((addToWishlist sampleStore "sess" 1 50).1) "sess" 1 60
      = ((addToWishlist sampleStore "sess" 1 50).1,
         some { id := 1, sessionId := "sess", productId := 1, createdAt := 50 })
    ∧ removeFromWishlist sampleStore "sess" 1 = (sampleStore, false) :=
  ⟨(C8_wishlist_ops sampleStore "sess" 1 50 60).2.1
      ((addToWishlist sampleStore "sess" 1 50).1)
      { id := 1, sessionId := "sess", productId := 1, createdAt := 50 } (by decide),
   (C8_wishlist_ops sampleStore "sess" 1 50 60).2.2.1 (by decide)⟩

/-! ### C2: receipt totals invariant -/

/-- A header whose client-supplied `total` contradicts the invariant. -/
def cexReceiptHeader : InsertReceipt :=
  { receiptNumber := "RCP-BAD", subtotal := 1, taxRate := 0, taxAmount := 0,
    discountRate := 0, discountAmount := 0, total := 5 }

/-- The row the store ends up holding for `cexReceiptHeader`. -/
def cexReceiptRow : Receipt :=
  { id := 1, receiptNumber := "RCP-BAD", subtotal := 1, taxRate := 0, taxAmount := 0,
    discountRate := 0, discountAmount := 0, total := 5 }

/-- C2 counterexample: `createReceipt` persists a header whose stored
`total` violates `total = (subtotal − discountAmount) + taxAmount`; the
storage layer stores whatever totals the caller submits, with no
server-side recomputation or check. -/
theorem C2_counterexample :
    ∃ rec ∈ ((createReceipt emptyStore cexReceiptHeader []).1).receipts,
      ¬ rec.total = (rec.subtotal - rec.discountAmount) + rec.taxAmount :=
  ⟨cexReceiptRow, by decide, by norm_num [cexReceiptRow]⟩

/-- Whenever `createReceipt` reports a persisted receipt, that receipt's
money fields are exactly the submitted header's. -/
theorem createReceipt_some_fields {st : Store × Bool} {newR rec : Receipt} {s' : Store}
    (h : (st.1, if st.2 then some newR else none) = (s', some rec)) : rec = newR := by
  rcases st with ⟨s1, b⟩
  cases b
  · rw [Prod.mk.injEq] at h
    exact absurd h.2 (by simp)
  · rw [Prod.mk.injEq, if_pos rfl, Option.some.injEq] at h
    exact h.2.symm

/-- C2 (amended): `createReceipt` persists the header money fields
exactly as supplied; whenever the supplied header carries the outputs of
the client's `calculateTotals` (the only totals writer in the
repository), the persisted receipt satisfies total = (subtotal −
discountAmount) + taxAmount, discountAmount = subtotal × discountRate
and taxAmount = (subtotal − discountAmount) × taxRate. -/
theorem C2_totals_invariant (s : Store) (r : InsertReceipt)
    (items : List InsertReceiptItem) (sel : List SelectedProduct) (s' : Store) (rec : Receipt)
    (hcr : createReceipt s r items = (s', some rec))
    (hsub : r.subtotal = (calculateTotals sel r.taxRate r.discountRate).subtotal)
    (hdisc : r.discountAmount = (calculateTotals sel r.taxRate r.discountRate).discountAmount)
    (htax : r.taxAmount = (calculateTotals sel r.taxRate r.discountRate).taxAmount)
    (htot : r.total = (calculateTotals sel r.taxRate r.discountRate).total) :
    rec.subtotal = r.subtotal ∧ rec.taxRate = r.taxRate ∧ rec.discountRate = r.discountRate
    ∧ rec.taxAmount = r.taxAmount ∧ rec.discountAmount = r.discountAmount
    ∧ rec.total = r.total
    ∧ rec.total = (rec.subtotal - rec.discountAmount) + rec.taxAmount
    ∧ rec.discountAmount = rec.subtotal * rec.discountRate
    ∧ rec.taxAmount = (rec.subtotal - rec.discountAmount) * rec.taxRate := by
  unfold createReceipt at hcr
  by_cases hdup : s.receipts.any (fun x => x.receiptNumber == r.receiptNumber) = true
  · rw [if_pos hdup] at hcr
    rw [Prod.mk.injEq] at hcr
    exact absurd hcr.2 (by simp)
  · rw [if_neg hdup] at hcr
    have hrec := createReceipt_some_fields hcr
    subst hrec
    rw [htot, hdisc, htax, hsub]
    unfold calculateTotals
    exact ⟨rfl, rfl, rfl, rfl, rfl, rfl, rfl, rfl, rfl⟩

/-- The spec's worked example (§8): two line items 10.00×2 and 5.00×1,
tax rate 8.25%, no discount. -/
def wReceiptHeader : InsertReceipt :=
  { receiptNumber := "RCP-1001", subtotal := 25, taxRate := 33/400, taxAmount := 33/16,
    discountRate := 0, discountAmount := 0, total := 433/16 }

/-- The receipt row `createReceipt` persists for `wReceiptHeader`. -/
def wReceiptRow : Receipt :=
  { id := 1, receiptNumber := "RCP-1001", subtotal := 25, taxRate := 33/400,
    taxAmount := 33/16, discountRate := 0, discountAmount := 0, total := 433/16 }

/-- Witness for the amended C2 at the spec's worked example: subtotal 25,
taxAmount 2.0625, total 27.0625. -/
theorem C2_totals_invariant_witness :
    wReceiptRow.total = (wReceiptRow.subtotal - wReceiptRow.discountAmount) + wReceiptRow.taxAmount
    ∧ wReceiptRow.discountAmount = wReceiptRow.subtotal * wReceiptRow.discountRate
    ∧ wReceiptRow.taxAmount
        = (wReceiptRow.subtotal - wReceiptRow.discountAmount) * wReceiptRow.taxRate := by
  have h := C2_totals_invariant emptyStore wReceiptHeader []
    [{ price := 10, quantity := 2, total := 20 }, { price := 5, quantity := 1, total := 5 }]
    ((createReceipt emptyStore wReceiptHeader []).1) wReceiptRow
    rfl
    (by simp only [calculateTotals, List.foldl]; norm_num [wReceiptHeader])
    (by simp only [calculateTotals, List.foldl]; norm_num [wReceiptHeader])
    (by simp only [calculateTotals, List.foldl]; norm_num [wReceiptHeader])
    (by simp only [calculateTotals, List.foldl]; norm_num [wReceiptHeader])
  exact ⟨h.2.2.2.2.2.2.1, h.2.2.2.2.2.2.2.1, h.2.2.2.2.2.2.2.2⟩

/-! ### C3: receipt creation is not atomic -/

/-- A store holding only `prodA` (product id 1). -/
def s3Store : Store := { emptyStore with products := [prodA], nextProductId := 2 }

/-- A line item referencing the existing product 1. -/
def item3ok : InsertReceiptItem :=
  { receiptId := 0, productId := 1, productName := "Widget", productSku := "A-001-2025",
    quantity := 2, unitPrice := 10, totalPrice := 20 }

/-- A line item referencing product 99, which does not exist, so its
INSERT violates the `receipt_items.product_id` foreign key. -/
def item3bad : InsertReceiptItem :=
  { receiptId := 0, productId := 99, productName := "Ghost", productSku := "X-999-2025",
    quantity := 1, unitPrice := 5, totalPrice := 5 }

/-- The header submitted together with the two items. -/
def hdr3 : InsertReceipt :=
  { receiptNumber := "RCP-2001", subtotal := 25, taxRate := 0, taxAmount := 0,
    discountRate := 0, discountAmount := 0, total := 25 }

/-- C3 (code bug): `createReceipt` runs the header INSERT and each item
INSERT as separate auto-committed statements with no transaction, so
when the second item's foreign key is violated the call fails (`none`),
yet the store keeps the receipt header `RCP-2001` together with only the
first of its two items - a partial receipt, which the claim (and spec
§4.5/§7) forbids. -/
theorem C3_not_atomic :
    (createReceipt s3Store hdr3 [item3ok, item3bad]).2 = none
    ∧ ((createReceipt s3Store hdr3 [item3ok, item3bad]).1).receipts.map
        (fun x => x.receiptNumber) = ["RCP-2001"]
    ∧ ((createReceipt s3Store hdr3 [item3ok, item3bad]).1).receiptItems.map
        (fun it => (it.receiptId, it.productId)) = [(1, 1)] := by
  refine ⟨by decide, by decide, by decide⟩

/-! ### C5: product deletion semantics -/

/-- An image row for product 1. -/
def img5 : ProductImage := { id := 1, productId := 1, imageUrl := "/uploads/w.png" }

/-- A review row for product 1. -/
def rev5 : ProductReview := { id := 1, productId := 1, rating := 5 }

/-- A wishlist row for product 1. -/
def wl5 : WishlistItem := { id := 1, sessionId := "sess", productId := 1, createdAt := 10 }

/-- A persisted receipt. -/
def rcp5 : Receipt :=
  { id := 1, receiptNumber := "RCP-3001", subtotal := 20, taxRate := 0, taxAmount := 0,
    discountRate := 0, discountAmount := 0, total := 20 }

/-- A receipt item of `rcp5` referencing product 1. -/
def ri5 : ReceiptItem :=
  { id := 1, receiptId := 1, productId := 1, productName := "Widget",
    productSku := "A-001-2025", quantity := 2, unitPrice := 10, totalPrice := 20 }

/-- A store where product 1 has an image, a review, a wishlist row, and
appears on a receipt. -/
def s5Store : Store :=
  { emptyStore with
    products := [prodA], productImages := [img5], productReviews := [rev5],
    wishlistRows := [wl5], receipts := [rcp5], receiptItems := [ri5],
    nextProductId := 2, nextWishlistId := 2, nextReceiptId := 2, nextReceiptItemId := 2 }

/-- C5 counterexample: deleting product 1, which a receipt item
references, does not remove its image/review/wishlist rows - with
`PRAGMA foreign_keys = ON` the `receipt_items.product_id` foreign key
(declared with no ON DELETE action) rejects the DELETE outright, so the
cascade the claim describes never runs and the store is unchanged. -/
theorem C5_counterexample :
    deleteProduct s5Store 1 = (s5Store, none)
    ∧ ((deleteProduct s5Store 1).1).productImages.filter (fun im => im.productId == 1) ≠ []
    ∧ prodA ∈ ((deleteProduct s5Store 1).1).products := by
  refine ⟨by decide, by decide, by decide⟩

/-- C5 (amended): when the product is referenced by some receipt item,
`deleteProduct` fails and changes nothing; when it is not, the deletion
succeeds, its images, reviews and wishlist rows are removed (exactly the
rows carrying that product id), and the receipts and receipt items -
hence all receipt totals - are untouched. -/
theorem C5_delete_cascade (s : Store) (pid : Nat)
    (hex : s.products.any (fun p => p.id == pid) = true) :
    (s.receiptItems.any (fun it => it.productId == pid) = true →
      deleteProduct s pid = (s, none))
    ∧ (s.receiptItems.any (fun it => it.productId == pid) = false →
        (deleteProduct s pid).2 = some true
        ∧ (∀ im : ProductImage, im ∈ ((deleteProduct s pid).1).productImages
            ↔ im ∈ s.productImages ∧ ¬ im.productId = pid)
        ∧ (∀ rv : ProductReview, rv ∈ ((deleteProduct s pid).1).productReviews
            ↔ rv ∈ s.productReviews ∧ ¬ rv.productId = pid)
        ∧ (∀ w : WishlistItem, w ∈ ((deleteProduct s pid).1).wishlistRows
            ↔ w ∈ s.wishlistRows ∧ ¬ w.productId = pid)
        ∧ ((deleteProduct s pid).1).receipts = s.receipts
        ∧ ((deleteProduct s pid).1).receiptItems = s.receiptItems) := by
  constructor
  · intro h
    unfold deleteProduct
    rw [if_pos hex, if_pos h]
  · intro h
    unfold deleteProduct
    rw [if_pos hex, if_neg (by rw [h]; exact Bool.false_ne_true)]
    refine ⟨rfl, ?_, ?_, ?_, rfl, rfl⟩
    · intro im
      rw [List.mem_filter]
      simp
    · intro rv
      rw [List.mem_filter]
      simp
    · intro w
      rw [List.mem_filter]
      simp

/-- `s5Store` with the referencing receipt item removed: product 1 is no
longer on any receipt. -/
def s5bStore : Store := { s5Store with receiptItems := [] }

/-- Witness for the amended C5: the blocked branch on `s5Store` and the
successful cascade branch on `s5bStore`. -/
theorem C5_delete_cascade_witness :
    deleteProduct s5Store 1 = (s5Store, none)
    ∧ (deleteProduct s5bStore 1).2 = some true
    ∧ (img5 ∈ ((deleteProduct s5bStore 1).1).productImages
        ↔ img5 ∈ s5bStore.productImages ∧ ¬ img5.productId = 1) :=
  ⟨(C5_delete_cascade s5Store 1 (by decide)).1 (by decide),
   ((C5_delete_cascade s5bStore 1 (by decide)).2 (by decide)).1,
   ((C5_delete_cascade s5bStore 1 (by decide)).2 (by decide)).2.1 img5⟩

/-! ### C10: generateSku as a pure, deterministic read -/

/-- C10 counterexample: between two `generateSku "A"` calls, the only
intervening operation is `updateProduct`, which moves product 2 from
category "B" into "A" - not a product creation or deletion - yet the two
calls return different SKUs, refuting the claim's determinism clause as
stated. -/
theorem C10_counterexample :
    generateSku sampleStore "A" 2026 = "A-002-2026"
    ∧ generateSku ((updateProduct sampleStore 2 { category := some "A" }).1) "A" 2026
        = "A-003-2026"
    ∧ generateSku sampleStore "A" 2026
        ≠ generateSku ((updateProduct sampleStore 2 { category := some "A" }).1) "A" 2026 := by
  refine ⟨by decide, by decide, by decide⟩

/-- `generateSku` reads nothing but the category's product count. -/
theorem generateSku_congr {s s' : Store} {c : String} (y : Nat)
    (h : countByCategory s.products c = countByCategory s'.products c) :
    generateSku s c y = generateSku s' c y := by
  unfold generateSku
  rw [h]

theorem countByCategory_eq_countP (l : List Product) (c : String) :
    countByCategory l c = l.countP (fun p => p.category == c) :=
  (List.countP_eq_length_filter _ _).symm

theorem countP_filter_pres {α : Type} (f g : α → Bool) :
    ∀ l : List α, (∀ p ∈ l, f p = false → g p = false) →
      (l.filter f).countP g = l.countP g := by
  intro l
  induction l with
  | nil => intro _; rfl
  | cons p t ih =>
    intro h
    rw [List.filter_cons]
    by_cases hf : f p = true
    · rw [if_pos hf, List.countP_cons, List.countP_cons,
        ih (fun q hq => h q (List.mem_cons_of_mem p hq))]
    · have hfp : f p = false := by
        cases hx : f p
        · rfl
        · exact absurd hx hf
      rw [if_neg hf, ih (fun q hq => h q (List.mem_cons_of_mem p hq)), List.countP_cons]
      have hg : g p = false := h p (List.mem_cons_self p t) hfp
      simp [hg]

theorem countP_map_pres {α : Type} (u : α → α) (g : α → Bool)
    (l : List α) (h : ∀ p ∈ l, g (u p) = g p) :
    (l.map u).countP g = l.countP g := by
  rw [List.countP_map]
  exact List.countP_congr (fun p hp => by simp only [Function.comp_apply, h p hp])

theorem countByCategory_append_one (l : List Product) (p : Product) (c : String)
    (h : ¬ p.category = c) : countByCategory (l ++ [p]) c = countByCategory l c := by
  unfold countByCategory
  rw [List.filter_append]
  have hnil : List.filter (fun q => q.category == c) [p] = [] := by simp [h]
  rw [hnil, List.append_nil]

theorem addToWishlist_products (s : Store) (sid : String) (pid : Nat) (now : Int) :
    (addToWishlist s sid pid now).1.products = s.products := by
  unfold addToWishlist
  cases hx : findWishlistRow s sid pid with
  | some w => rfl
  | none =>
    by_cases hp : s.products.any (fun p => p.id == pid) = true
    · rw [if_pos hp]
    · rw [if_neg hp]

theorem insertReceiptItemsLoop_products (rid : Nat) (items : List InsertReceiptItem) :
    ∀ s : Store, (insertReceiptItemsLoop s rid items).1.products = s.products := by
  induction items with
  | nil => intro s; rfl
  | cons it rest ih =>
    intro s
    unfold insertReceiptItemsLoop
    by_cases h : s.products.any (fun p => p.id == it.productId) = true
    · rw [if_pos h]
      rw [ih]
      rfl
    · rw [if_neg h]

theorem createReceipt_products (s : Store) (r : InsertReceipt)
    (items : List InsertReceiptItem) :
    (createReceipt s r items).1.products = s.products := by
  unfold createReceipt
  by_cases hdup : s.receipts.any (fun x => x.receiptNumber == r.receiptNumber) = true
  · rw [if_pos hdup]
  · rw [if_neg hdup]
    rw [insertReceiptItemsLoop_products]

/-- C10 (amended): `generateSku` is a function of the store alone (it
performs no writes, and its value depends only on the category's product
count and the year); its result is unchanged across intervening wishlist
operations, receipt creations, product creations in other categories,
deletions of products outside the category, and updates that leave the
`category` column alone. (A category-changing update - neither a
creation nor a deletion - can change it, per the counterexample.) -/
theorem C10_generateSku_pure (s s' : Store) (c : String) (y : Nat) (sid : String)
    (pid : Nat) (now : Int) (r : InsertReceipt) (items : List InsertReceiptItem)
    (np : InsertProduct) (patch : ProductPatch) :
    (countByCategory s.products c = countByCategory s'.products c →
      generateSku s c y = generateSku s' c y)
    ∧ generateSku ((addToWishlist s sid pid now).1) c y = generateSku s c y
    ∧ generateSku ((removeFromWishlist s sid pid).1) c y = generateSku s c y
    ∧ generateSku ((createReceipt s r items).1) c y = generateSku s c y
    ∧ (¬ np.category = c →
        generateSku ((createProduct s np now).1) c y = generateSku s c y)
    ∧ ((∀ p ∈ s.products, p.id = pid → ¬ p.category = c) →
        generateSku ((deleteProduct s pid).1) c y = generateSku s c y)
    ∧ (patch.category = none →
        generateSku ((updateProduct s pid patch).1) c y = generateSku s c y) := by
  refine ⟨fun h => generateSku_congr y h, ?_, ?_, ?_, ?_, ?_, ?_⟩
  · exact generateSku_congr y (by rw [addToWishlist_products])
  · exact generateSku_congr y rfl
  · exact generateSku_congr y (by rw [createReceipt_products])
  · intro hnp
    apply generateSku_congr y
    unfold createProduct
    by_cases hdup : s.products.any (fun p => p.sku == np.sku) = true
    · rw [if_pos hdup]
    · rw [if_neg hdup]
      exact countByCategory_append_one s.products _ c hnp
  · intro hdel
    apply generateSku_congr y
    unfold deleteProduct
    by_cases hex : s.products.any (fun p => p.id == pid) = true
    · rw [if_pos hex]
      by_cases href : s.receiptItems.any (fun it => it.productId == pid) = true
      · rw [if_pos href]
      · rw [if_neg href]
        show countByCategory (s.products.filter (fun p => !(p.id == pid))) c = _
        rw [countByCategory_eq_countP, countByCategory_eq_countP]
        apply countP_filter_pres
        intro p hp hfp
        have hid : p.id = pid := by
          cases hx : (p.id == pid)
          · rw [hx] at hfp
            exact absurd hfp (by simp)
          · exact beq_iff_eq.mp hx
        have hc := hdel p hp hid
        simp [hc]
    · rw [if_neg hex]
  · intro hpatch
    apply generateSku_congr y
    show countByCategory (s.products.map
        (fun p => if p.id == pid then applyPatch patch p else p)) c = _
    rw [countByCategory_eq_countP, countByCategory_eq_countP]
    apply countP_map_pres
    intro p _
    by_cases hid : (p.id == pid) = true
    · rw [if_pos hid]
      show ((applyPatch patch p).category == c) = (p.category == c)
      unfold applyPatch
      rw [hpatch]
      rfl
    · rw [if_neg hid]

/-- A product payload for a third category `"C"`. -/
def npC : InsertProduct :=
  { name := "Trinket", sku := "C-001-2026", category := "C", price := 3,
    stockQuantity := 7, description := none, brand := none, tags := none,
    isActive := true, isFeatured := false }

/-- Witness for the amended C10: concrete non-"A" operations leave
`generateSku "A"` unchanged on the sample store. -/
theorem C10_generateSku_pure_witness :
    generateSku ((createProduct sampleStore npC 300).1) "A" 2026
        = generateSku sampleStore "A" 2026
    ∧ generateSku ((deleteProduct sampleStore 2).1) "A" 2026
        = generateSku sampleStore "A" 2026
    ∧ generateSku ((updateProduct sampleStore 2 { price := some 99 }).1) "A" 2026
        = generateSku sampleStore "A" 2026 := by
  have h := C10_generateSku_pure sampleStore sampleStore "A" 2026 "sess" 2 300
    cexReceiptHeader [] npC { price := some 99 }
  exact ⟨h.2.2.2.2.1 (by decide), h.2.2.2.2.2.1 (by decide), h.2.2.2.2.2.2 rfl⟩

end InventoryApp
